import Mathlib

/-!
Verification of the memory-allocation engine in `src/memory/wrapper.h`
(cpp-ipc): the size-class mapping policy `default_mapping_policy`, the
dispatcher `variable_wrapper`, the STL adapter `allocator_wrapper`, and the
thread-local proxy `async_wrapper::alloc_proxy`.

Machine integers (`std::size_t`) are embedded as `Nat` with explicit
wraparound modulo `2 ^ w`, where `w` is the bit width of `size_t` on the
target platform (at least 16 by the C standard; 64 on the usual targets).
-/

set_option maxRecDepth 4000

namespace ipc.mem

/-- Bit-width-parameterized value of `size - 1` computed in unsigned
`size_t` arithmetic: subtraction wraps modulo `2 ^ w`. -/
def usub1 (w size : Nat) : Nat :=
  (size + (2 ^ w - 1)) % 2 ^ w

/-- Embeds `default_mapping_policy::base_size`, i.e. the default template
argument `sizeof(void*)` on a 64-bit target. -/
def base_size : Nat := 8

/-- Embeds `default_mapping_policy::classes_size`. -/
def classes_size : Nat := 32

/-- Embeds the definition of `default_mapping_policy<B>::table`. -/
def table : List Nat :=
  [0, 1, 2, 3,
   5, 5, 7, 7, 9, 9, 11, 11, 13, 13, 15, 15, 17, 17,
   19, 19, 21, 21, 23, 23, 25, 25, 27, 27, 29, 29, 31, 31]

/-- Embeds `default_mapping_policy::classify`:
`(((size - 1) / base_size) < classes_size) ? table[(size - 1) / base_size] : classes_size`,
with the unsigned `size - 1` made explicit as `usub1 w size`. -/
def classify (w size : Nat) : Nat :=
  if usub1 w size / base_size < classes_size then
    table.getD (usub1 w size / base_size) 0
  else
    classes_size

/-- Spec-side restatement for the refinement claim C1, following the spec's
words: compute `index = (size - 1) / base_size` in unsigned arithmetic; if
`index < classes_size`, look up `table[index]` and return it; otherwise
return the overflow sentinel, numerically equal to `classes_size`. -/
def classify_spec (w size : Nat) : Nat :=
  let index := (size + (2 ^ w - 1)) % 2 ^ w / base_size
  if index < classes_size then table.getD index 0 else classes_size

/-- Wraparound-free form of `classify` for nonzero in-range sizes, using
truncated `Nat` subtraction; proven equal to `classify` below. -/
def classifyTrunc (size : Nat) : Nat :=
  if (size - 1) / base_size < classes_size then
    table.getD ((size - 1) / base_size) 0
  else
    classes_size

lemma usub1_eq (w size : Nat) (h1 : 1 ≤ size) (h2 : size < 2 ^ w) :
    usub1 w size = size - 1 := by
  have hw : 0 < 2 ^ w := pow_pos (by norm_num) w
  unfold usub1
  have h3 : size + (2 ^ w - 1) = (size - 1) + 1 * 2 ^ w := by omega
  rw [h3, Nat.add_mul_mod_self_right]
  exact Nat.mod_eq_of_lt (by omega)

lemma usub1_zero (w : Nat) : usub1 w 0 = 2 ^ w - 1 := by
  have hw : 0 < 2 ^ w := pow_pos (by norm_num) w
  unfold usub1
  rw [Nat.zero_add]
  exact Nat.mod_eq_of_lt (by omega)

lemma classify_pos (w size : Nat) (h1 : 1 ≤ size) (h2 : size < 2 ^ w) :
    classify w size = classifyTrunc size := by
  unfold classify classifyTrunc
  rw [usub1_eq w size h1 h2]

lemma two_pow_ge (w : Nat) (hw : 9 ≤ w) : 512 ≤ 2 ^ w := by
  calc (512 : Nat) = 2 ^ 9 := by norm_num
    _ ≤ 2 ^ w := Nat.pow_le_pow_right (by norm_num) hw

lemma zero_index_ge (w : Nat) (hw : 9 ≤ w) :
    classes_size ≤ usub1 w 0 / base_size := by
  have h512 := two_pow_ge w hw
  rw [usub1_zero]
  show 32 ≤ (2 ^ w - 1) / 8
  exact (Nat.le_div_iff_mul_le (by norm_num)).mpr (by omega)

lemma classify_zero (w : Nat) (hw : 9 ≤ w) : classify w 0 = classes_size := by
  unfold classify
  rw [if_neg (Nat.not_lt.mpr (zero_index_ge w hw))]

lemma classifyTrunc_lt : ∀ s, s < 257 → 1 ≤ s → classifyTrunc s < classes_size := by
  decide

lemma classifyTrunc_cap :
    ∀ s, s < 257 → 1 ≤ s → s ≤ (classifyTrunc s + 1) * base_size := by
  decide

lemma table_mono :
    ∀ j, j < classes_size → ∀ i, i ≤ j → table.getD i 0 ≤ table.getD j 0 := by
  decide

lemma table_lt : ∀ i, i < classes_size → table.getD i 0 < classes_size := by
  decide

/-! ## The dispatcher `variable_wrapper` -/

/-- Modelled from the spec: `ipc::detail::static_switch<N>(i, case, default)`
(declared in `platform/detail.h`, which is not under `src/`) is the
"fixed-arity switch over a compile-time-known set" of §4.4: it invokes the
case branch at index `i` when `i < N` and the default branch otherwise. -/
def static_switch {α : Type} (N i : Nat) (f : Nat → α) (d : α) : α :=
  if i < N then f i else d

/-- Identity of the allocator an operation is forwarded to: the fixed-size
bucket `Fixed<n>` for some byte size `n`, or the fallback `StaticAlloc`. -/
inductive Route : Type where
  | bucket : Nat → Route
  | fallback : Route
deriving DecidableEq

/-- Embeds `variable_wrapper::choose`: dispatch on `classify(size)`; a valid
index selects `Fixed<(index + 1) * base_size>`, overflow selects the
fallback `StaticAlloc`. The continuation `f` receives the chosen allocator's
identity, exactly as the C++ lambda receives the chosen allocator. -/
def variable_choose {α : Type} (w size : Nat) (f : Route → α) : α :=
  static_switch classes_size (classify w size)
    (fun index => f (Route.bucket ((index + 1) * base_size)))
    (f Route.fallback)

/-- Allocator that `variable_wrapper::alloc(size)` forwards to. -/
def alloc_route (w size : Nat) : Route :=
  variable_choose w size id

/-- Allocator that `variable_wrapper::free(p, size)` forwards to. The
pointer `p` is in scope, as in the C++ lambda, but `choose` consults only
`size`. -/
def free_route (w : Nat) (p size : Nat) : Route :=
  variable_choose w size id

/-- Modelled from the spec: `mem::static_alloc` (declared in
`memory/alloc.h`, which is not under `src/`) is the fallback general
allocator; per §8 scenario 6 a zero-size request performs no allocation and
yields a null result, and otherwise it may return a pointer or null
(abstracted by `heap`). `none` models a null pointer. -/
def static_alloc_alloc (heap : Nat → Option Nat) (size : Nat) : Option Nat :=
  if size = 0 then none else heap size

/-- Embeds `variable_wrapper::alloc`: `choose(size, [size](alc) { return
alc.alloc(size); })`, with each bucket `Fixed<n>`'s `alloc` abstracted by
`bucketAlloc n` and the fallback by `static_alloc_alloc heap`. -/
def variable_alloc (w : Nat) (bucketAlloc : Nat → Nat → Option Nat)
    (heap : Nat → Option Nat) (size : Nat) : Option Nat :=
  variable_choose w size (fun r =>
    match r with
    | Route.bucket n => bucketAlloc n size
    | Route.fallback => static_alloc_alloc heap size)

lemma alloc_route_eq_bucket (w size : Nat) (h : classify w size < classes_size) :
    alloc_route w size = Route.bucket ((classify w size + 1) * base_size) := by
  simp [alloc_route, variable_choose, static_switch, h]

lemma alloc_route_eq_fallback (w size : Nat)
    (h : ¬ classify w size < classes_size) :
    alloc_route w size = Route.fallback := by
  simp [alloc_route, variable_choose, static_switch, h]

/-! ## The STL adapter `allocator_wrapper` -/

/-- Embeds `allocator_wrapper<T, AllocP>::max_size`:
`std::numeric_limits<size_type>::max() / sizeof(T)`, for `size_t` of width
`w` and `sizeof(T) = sizeofT`. -/
def max_size (w sizeofT : Nat) : Nat :=
  (2 ^ w - 1) / sizeofT

/-- Embeds `allocator_wrapper<T, AllocP>::allocate` (a `noexcept` member,
so the only failure signal is the null return, modelled as `none`): return
null for `count == 0` or `count > max_size()`, otherwise forward
`count * sizeof(T)` (a `size_t` product, hence reduced modulo `2 ^ w`) to
the policy `allocP`. -/
def allocate (w sizeofT : Nat) (allocP : Nat → Option Nat)
    (count : Nat) : Option Nat :=
  if count = 0 then none
  else if max_size w sizeofT < count then none
  else allocP (count * sizeofT % 2 ^ w)

/-! ## The thread-local proxy `async_wrapper::alloc_proxy` -/

/-- Embeds the data of `async_wrapper::alloc_proxy`: the `AllocP` base
subobject state `st` together with the back-reference `w_` to the owning
`async_wrapper` (`none` models the null pointer `nullptr`). `A` is the
state type of the allocation policy `AllocP`. -/
structure alloc_proxy (A : Type) : Type where
  w_ : Option Unit
  st : A

/-- Embeds the constructor `alloc_proxy(async_wrapper* w)` acting on the
owning wrapper's `master_allocs_` pool (a `std::vector`, modelled as a
list whose last element is `back()`): when `w` is null, nothing happens;
otherwise, if the pool is non-empty, `AllocP::swap` with `back()` followed
by `pop_back()` hands the last pooled state to the proxy and drops the
proxy's default-constructed state `fresh` with the popped slot. Returns
the constructed proxy and the resulting pool. -/
def proxy_ctor {A : Type} (w : Option Unit) (fresh : A) (pool : List A) :
    alloc_proxy A × List A :=
  match w with
  | none => (⟨none, fresh⟩, pool)
  | some u =>
    match pool.getLast? with
    | none => (⟨some u, fresh⟩, pool)
    | some b => (⟨some u, b⟩, pool.dropLast)

/-- Embeds the destructor `~alloc_proxy()`: when the back-reference is
null, nothing happens; otherwise `master_allocs_.emplace_back` appends the
proxy's state to the pool. Returns the resulting pool. -/
def proxy_dtor {A : Type} (p : alloc_proxy A) (pool : List A) : List A :=
  match p.w_ with
  | none => pool
  | some _ => pool ++ [p.st]

/-- Embeds the move constructor `alloc_proxy(alloc_proxy&& rhs) :
AllocP(std::move(rhs)) {}`: the new proxy takes over the base-subobject
state and leaves its own `w_` at the default member initializer `nullptr`;
`rhs` keeps its `w_` and its base is left in the moved-from state
`movedFrom`. Returns (new proxy, move source after the move). -/
def proxy_move_ctor {A : Type} (movedFrom : A) (rhs : alloc_proxy A) :
    alloc_proxy A × alloc_proxy A :=
  (⟨none, rhs.st⟩, ⟨rhs.w_, movedFrom⟩)

/-! ## Claim theorems -/

/-- C1: for every requested size, `classify(size)` computes
`index = (size - 1) / base_size` in unsigned arithmetic and, if
`index < classes_size`, returns `table[index]` as the bucket index;
otherwise it returns the overflow sentinel, numerically equal to
`classes_size`. -/
theorem classify_refines_spec (w size : Nat) :
    classify w size = classify_spec w size
    ∧ (usub1 w size / base_size < classes_size →
        classify w size = table.getD (usub1 w size / base_size) 0)
    ∧ (classes_size ≤ usub1 w size / base_size →
        classify w size = classes_size) := by
  refine ⟨rfl, fun h => ?_, fun h => ?_⟩
  · unfold classify
    rw [if_pos h]
  · unfold classify
    rw [if_neg (Nat.not_lt.mpr h)]

/-- C2: classification totality. For `1 ≤ s ≤ base_size * classes_size
= 256`, `classify(s)` is a valid bucket index below `classes_size`; for
every in-range `size_t` value `s > 256`, it is the overflow sentinel
`classes_size`; and `classify(256)` is the last valid bucket index
`classes_size - 1 = 31`, not overflow. -/
theorem classify_total (w s : Nat) (hw : 9 ≤ w) :
    (1 ≤ s → s ≤ base_size * classes_size → classify w s < classes_size)
    ∧ (base_size * classes_size < s → s < 2 ^ w → classify w s = classes_size)
    ∧ classify w (base_size * classes_size) = classes_size - 1 := by
  have h512 := two_pow_ge w hw
  refine ⟨fun h1 h2 => ?_, fun h1 h2 => ?_, ?_⟩
  · have hs : s < 2 ^ w := by
      have : s ≤ 256 := h2
      omega
    rw [classify_pos w s h1 hs]
    exact classifyTrunc_lt s (by have : s ≤ 256 := h2; omega) h1
  · have h256 : (256 : Nat) < s := h1
    rw [classify_pos w s (by omega) h2]
    unfold classifyTrunc
    have hge : ¬ ((s - 1) / base_size < classes_size) := by
      have h32 : 32 ≤ (s - 1) / 8 :=
        (Nat.le_div_iff_mul_le (by norm_num)).mpr (by omega)
      exact Nat.not_lt.mpr h32
    rw [if_neg hge]
  · rw [show base_size * classes_size = 256 from rfl,
      classify_pos w 256 (by norm_num) (by omega)]
    decide

/-- C2 witness at `w = 64`, `s = 256`. -/
theorem classify_total_witness :
    9 ≤ 64 ∧ classify 64 (base_size * classes_size) = classes_size - 1 :=
  ⟨by decide, (classify_total 64 256 (by decide)).2.2⟩

/-- C3 counterexample: the claim quantifies over every pair of sizes
`s1 ≤ s2`, but at `s1 = 0`, `s2 = 1` (with `w = 64`) unsigned wraparound
sends size `0` to the overflow sentinel `32` while `classify(1) = 0`, so
`classify` is not monotone at zero. -/
theorem classify_monotone_counterexample :
    (0 : Nat) ≤ 1 ∧ classify 64 0 = 32 ∧ classify 64 1 = 0
    ∧ ¬ classify 64 0 ≤ classify 64 1 := by
  decide

/-- C3 amended: for every pair of NONZERO in-range sizes `1 ≤ s1 ≤ s2 <
2 ^ w`, `classify(s1) ≤ classify(s2)`; and the lookup table is a
monotonically non-decreasing sequence of bucket indices. (The original
claim fails only at `s1 = 0`, where wraparound yields the sentinel.) -/
theorem classify_monotone (w s1 s2 : Nat) (h1 : 1 ≤ s1) (h12 : s1 ≤ s2)
    (h2 : s2 < 2 ^ w) :
    classify w s1 ≤ classify w s2
    ∧ ∀ j, j < classes_size → ∀ i, i ≤ j →
        table.getD i 0 ≤ table.getD j 0 := by
  refine ⟨?_, table_mono⟩
  rw [classify_pos w s1 h1 (lt_of_le_of_lt h12 h2),
    classify_pos w s2 (le_trans h1 h12) h2]
  unfold classifyTrunc
  have hij : (s1 - 1) / base_size ≤ (s2 - 1) / base_size :=
    Nat.div_le_div_right (by omega)
  by_cases hj : (s2 - 1) / base_size < classes_size
  · rw [if_pos hj, if_pos (lt_of_le_of_lt hij hj)]
    exact table_mono _ hj _ hij
  · rw [if_neg hj]
    by_cases hi : (s1 - 1) / base_size < classes_size
    · rw [if_pos hi]
      exact le_of_lt (table_lt _ hi)
    · rw [if_neg hi]

/-- C3 amended-claim witness at `w = 64`, `s1 = 1`, `s2 = 9`. -/
theorem classify_monotone_witness :
    1 ≤ 1 ∧ 1 ≤ 9 ∧ 9 < 2 ^ 64 ∧ classify 64 1 ≤ classify 64 9 :=
  ⟨by decide, by decide, by decide,
    (classify_monotone 64 1 9 (by decide) (by decide) (by decide)).1⟩

/-- C4: for a zero-size request the subtraction `0 - 1` wraps modulo
`2 ^ w` to `2 ^ w - 1`, whose scaled index is not below `classes_size`,
so `classify 0` is the overflow sentinel `classes_size`. Holds for every
`size_t` width `w ≥ 9` (every C platform has `w ≥ 16`). -/
theorem classify_zero_overflow (w : Nat) (hw : 9 ≤ w) :
    usub1 w 0 = 2 ^ w - 1
    ∧ classes_size ≤ usub1 w 0 / base_size
    ∧ classify w 0 = classes_size :=
  ⟨usub1_zero w, zero_index_ge w hw, classify_zero w hw⟩

/-- C4 witness at `w = 64`. -/
theorem classify_zero_overflow_witness :
    9 ≤ 64 ∧ classify 64 0 = classes_size :=
  ⟨by decide, (classify_zero_overflow 64 (by decide)).2.2⟩

/-- C5: for `1 ≤ s ≤ 256` the dispatcher selects the bucket
`Fixed<(classify(s) + 1) * base_size>`, whose nominal capacity is at least
`s` (the engine over-allocates, never under-allocates); in particular
sizes 1 and 8 select the size-8 bucket and size 9 selects the size-16
bucket. -/
theorem bucket_capacity_ge_request (w s : Nat) (hw : 9 ≤ w) (h1 : 1 ≤ s)
    (h2 : s ≤ base_size * classes_size) :
    alloc_route w s = Route.bucket ((classify w s + 1) * base_size)
    ∧ s ≤ (classify w s + 1) * base_size
    ∧ alloc_route w 1 = Route.bucket 8
    ∧ alloc_route w 8 = Route.bucket 8
    ∧ alloc_route w 9 = Route.bucket 16 := by
  have h512 := two_pow_ge w hw
  have h256 : s ≤ 256 := h2
  have hs : s < 2 ^ w := by omega
  have hpos : classify w s = classifyTrunc s := classify_pos w s h1 hs
  have hlt : classify w s < classes_size := by
    rw [hpos]; exact classifyTrunc_lt s (by omega) h1
  have c1 : classify w 1 = 0 := by
    rw [classify_pos w 1 (by norm_num) (by omega)]; decide
  have c8 : classify w 8 = 0 := by
    rw [classify_pos w 8 (by norm_num) (by omega)]; decide
  have c9 : classify w 9 = 1 := by
    rw [classify_pos w 9 (by norm_num) (by omega)]; decide
  refine ⟨alloc_route_eq_bucket w s hlt, ?_, ?_, ?_, ?_⟩
  · rw [hpos]; exact classifyTrunc_cap s (by omega) h1
  · rw [alloc_route_eq_bucket w 1 (by rw [c1]; decide), c1]
    rfl
  · rw [alloc_route_eq_bucket w 8 (by rw [c8]; decide), c8]
    rfl
  · rw [alloc_route_eq_bucket w 9 (by rw [c9]; decide), c9]
    rfl


/-- C5 witness at `w = 64`, `s = 40`. -/
theorem bucket_capacity_ge_request_witness :
    9 ≤ 64 ∧ 1 ≤ 40 ∧ 40 ≤ base_size * classes_size
    ∧ 40 ≤ (classify 64 40 + 1) * base_size :=
  ⟨by decide, by decide, by decide,
    (bucket_capacity_ge_request 64 40 (by decide) (by decide) (by decide)).2.1⟩

/-- C6: for every size `s`, `alloc(s)` and a subsequent `free(p, s)` with
the same size are routed to the identical allocator — the bucket selected
by `classify(s)` when it is a valid index, the fallback otherwise — and
the route never depends on the pointer. -/
theorem route_alloc_free_agree (w s p p' : Nat) :
    free_route w p s = alloc_route w s
    ∧ free_route w p' s = free_route w p s
    ∧ (classify w s < classes_size →
        alloc_route w s = Route.bucket ((classify w s + 1) * base_size))
    ∧ (classes_size ≤ classify w s → alloc_route w s = Route.fallback) :=
  ⟨rfl, rfl, fun h => alloc_route_eq_bucket w s h,
    fun h => alloc_route_eq_fallback w s (Nat.not_lt.mpr h)⟩

/-- C7: `allocator_wrapper::allocate(count)` returns null when
`count == 0` or `count > max_size()`, and does so without invoking the
underlying allocation policy (the result is the same for every policy);
`allocate` is `noexcept` and total, so the null return is the only
failure signal. -/
theorem allocate_null_on_invalid (w sizeofT count : Nat)
    (P P' : Nat → Option Nat)
    (h : count = 0 ∨ max_size w sizeofT < count) :
    allocate w sizeofT P count = none
    ∧ allocate w sizeofT P' count = allocate w sizeofT P count := by
  rcases h with h | h
  · subst h
    exact ⟨rfl, rfl⟩
  · by_cases h0 : count = 0
    · subst h0
      exact ⟨rfl, rfl⟩
    · constructor <;> simp [allocate, h0, h]

/-- C7 witness at `w = 64`, `sizeof(T) = 4`, `count = 0`, with two
distinct concrete policies. -/
theorem allocate_null_on_invalid_witness :
    ((0 : Nat) = 0 ∨ max_size 64 4 < 0)
    ∧ allocate 64 4 (fun n => some n) 0 = none :=
  ⟨Or.inl rfl,
    (allocate_null_on_invalid 64 4 0 (fun n => some n) (fun _ => none)
      (Or.inl rfl)).1⟩

/-- C8: the engine's `alloc(0)` classifies size `0` to the overflow
sentinel, so it is routed to the fallback (whose zero-size request yields
null) and the result is null; no bucket allocator is touched — the result
is identical for every choice of bucket allocators. -/
theorem alloc_zero_null_no_bucket (w : Nat) (hw : 9 ≤ w)
    (bucketAlloc bucketAlloc' : Nat → Nat → Option Nat)
    (heap : Nat → Option Nat) :
    variable_alloc w bucketAlloc heap 0 = none
    ∧ variable_alloc w bucketAlloc' heap 0
        = variable_alloc w bucketAlloc heap 0 := by
  have hz := classify_zero w hw
  constructor <;>
    simp [variable_alloc, variable_choose, static_switch, hz,
      static_alloc_alloc]

/-- C8 witness at `w = 64` with concrete bucket allocators and heap. -/
theorem alloc_zero_null_no_bucket_witness :
    9 ≤ 64 ∧ variable_alloc 64 (fun _ _ => some 1) (fun _ => some 2) 0 = none :=
  ⟨by decide,
    (alloc_zero_null_no_bucket 64 (by decide) (fun _ _ => some 1)
      (fun _ _ => some 3) (fun _ => some 2)).1⟩

/-- C9: a proxy whose engine back-reference is null performs no pool
interaction: constructing it from a null `async_wrapper*` leaves the pool
unchanged (and yields a null back-reference), and destroying any proxy
with a null back-reference leaves the pool unchanged — so such a proxy
never returns an instance to the pool at all, let alone twice. -/
theorem unbound_proxy_no_pool_interaction (A : Type) (fresh st : A)
    (pool : List A) :
    (proxy_ctor (A := A) none fresh pool).2 = pool
    ∧ (proxy_ctor (A := A) none fresh pool).1.w_ = none
    ∧ proxy_dtor (alloc_proxy.mk none st) pool = pool :=
  ⟨rfl, rfl, rfl⟩

/-- C10: move-constructing an `alloc_proxy` leaves the new proxy's engine
back-reference null (so its destructor performs no pool interaction),
while the move source retains its back-reference, and when that reference
is set the source's destructor still appends its moved-from state to the
pool. -/
theorem move_ctor_null_backref (A : Type) (movedFrom : A)
    (rhs : alloc_proxy A) (pool : List A) :
    (proxy_move_ctor movedFrom rhs).1.w_ = none
    ∧ proxy_dtor (proxy_move_ctor movedFrom rhs).1 pool = pool
    ∧ (proxy_move_ctor movedFrom rhs).2.w_ = rhs.w_
    ∧ (rhs.w_.isSome →
        proxy_dtor (proxy_move_ctor movedFrom rhs).2 pool
          = pool ++ [movedFrom]) := by
  refine ⟨rfl, rfl, rfl, fun h => ?_⟩
  unfold proxy_dtor proxy_move_ctor
  match hw : rhs.w_ with
  | some u => rfl
  | none => rw [hw] at h; exact absurd h (by simp)

end ipc.mem
